import Mathlib

/-!
# Verification of the MagicUI prompt-analysis engine

A shallow embedding of `backend/lib/nlp_engine.py` (class `AdvancedNLPEngine`):
the static keyword catalogs, entity extraction, intent classification, and the
complexity / confidence scoring, together with theorems checking the spec's
claims about them.

Modelling conventions:
* Python strings are modelled as `String` / `List Char`; `str.lower` as
  `Char.toLower` (all catalog keywords are ASCII); the substring test
  `kw in s` as `containsSub`; `str.split()` (whitespace split dropping empty
  fields) is modelled by `wordCount`, which counts maximal runs of
  non-whitespace characters.
* Python floats are modelled exactly as rationals (`ℚ`); all constants in the
  source are decimal literals.
* Python dicts that the source only iterates or looks up by key are modelled
  as association lists in the source's literal insertion order (CPython dicts
  iterate in insertion order), with lookup `dictGet`.
* `list(set(xs))` is modelled by `List.dedup` (deduplication; the iteration
  order of a Python set is abstracted).
* The `try/except` wrapper of `analyze_prompt` is modelled by
  `analyze_prompt_catch`, which maps any exceptional outcome of the body to
  `_get_default_analysis`.
-/

namespace MagicUI

set_option maxRecDepth 40000

/-- Model of `str.lower()` restricted to the ASCII fragment the catalogs use. -/
def pyLower (s : List Char) : List Char := s.map Char.toLower

/-- Model of Python's substring containment `needle in hay`. -/
def containsSub (needle : List Char) : List Char → Bool
  | [] => needle.isEmpty
  | c :: rest => needle.isPrefixOf (c :: rest) || containsSub needle rest

/-- The whitespace characters of Python's default `str.split()`. -/
def pyIsSpace (c : Char) : Bool :=
  c = ' ' || c = '\t' || c = '\n' || c = '\r' || c = '\x0b' || c = '\x0c'

/-- Helper for `wordCount`: the flag records whether we are inside a word. -/
def wordCountAux : Bool → List Char → Nat
  | _, [] => 0
  | inWord, c :: rest =>
    if pyIsSpace c then wordCountAux false rest
    else (if inWord then 0 else 1) + wordCountAux true rest

/-- Model of `len(prompt.split())`: the number of maximal non-space runs. -/
def wordCount (s : List Char) : Nat := wordCountAux false s

/-- Lookup in an association list, modelling Python's `d.get(k)` /
`k in d` + `d[k]`. -/
def dictGet {α : Type} (d : List (String × α)) (k : String) : Option α :=
  (d.find? (fun p => p.1 == k)).map Prod.snd

/-- One entry of the page-type catalog `design_patterns`. -/
structure PatternData where
  components : List String
  layouts : List String
  complexity : ℚ
  keywords : List String
deriving DecidableEq, Repr

/-- One entry of the style catalog `style_guides`. -/
structure StyleData where
  characteristics : List String
  complexity : ℚ
  suitability : List String
  keywords : List String
deriving DecidableEq, Repr

/-- One entry of the domain catalog `domain_knowledge`. -/
structure DomainData where
  characteristics : List String
  keywords : List String
  audience : String
deriving DecidableEq, Repr

/-- `_initialize_design_patterns`, in the source's insertion order. -/
def design_patterns : List (String × PatternData) :=
  [ ("authentication",
     { components := ["login_form", "social_auth", "password_reset", "two_factor"]
       layouts := ["centered", "split_screen", "modal"]
       complexity := 6/10
       keywords := ["login", "signin", "auth", "authentication", "sign in"] })
  , ("dashboard",
     { components := ["sidebar", "header", "stats_cards", "charts", "tables", "notifications"]
       layouts := ["sidebar_left", "sidebar_right", "top_nav"]
       complexity := 9/10
       keywords := ["dashboard", "admin", "panel", "analytics", "stats", "control"] })
  , ("landing",
     { components := ["hero", "features", "testimonials", "pricing", "cta", "footer"]
       layouts := ["single_column", "multi_section", "parallax"]
       complexity := 7/10
       keywords := ["landing", "home", "hero", "marketing", "saas", "product"] })
  , ("ecommerce",
     { components := ["product_grid", "filters", "cart", "checkout", "reviews"]
       layouts := ["grid_sidebar", "masonry", "list_view"]
       complexity := 8/10
       keywords := ["shop", "store", "ecommerce", "product", "buy", "sell", "cart"] })
  , ("blog",
     { components := ["article_list", "sidebar", "search", "categories", "pagination"]
       layouts := ["two_column", "masonry", "list_view"]
       complexity := 5/10
       keywords := ["blog", "article", "post", "news", "content", "writing"] })
  , ("portfolio",
     { components := ["project_grid", "hero", "about", "contact", "gallery"]
       layouts := ["masonry", "grid", "showcase"]
       complexity := 6/10
       keywords := ["portfolio", "showcase", "gallery", "work", "projects", "creative"] })
  , ("contact",
     { components := ["contact_form", "map", "info_cards", "social_links"]
       layouts := ["split", "centered", "form_info"]
       complexity := 4/10
       keywords := ["contact", "form", "get in touch", "reach out", "inquiry"] }) ]

/-- `_initialize_style_guides`, in the source's insertion order. -/
def style_guides : List (String × StyleData) :=
  [ ("glassmorphism",
     { characteristics := ["transparency", "blur", "gradient", "modern"]
       complexity := 7/10
       suitability := ["landing", "portfolio", "creative"]
       keywords := ["glass", "glassmorphism", "transparent", "blur", "frosted"] })
  , ("minimalist",
     { characteristics := ["clean", "whitespace", "typography", "simple"]
       complexity := 4/10
       suitability := ["dashboard", "blog", "corporate"]
       keywords := ["minimal", "minimalist", "clean", "simple", "white"] })
  , ("brutalist",
     { characteristics := ["bold", "geometric", "contrast", "experimental"]
       complexity := 8/10
       suitability := ["portfolio", "creative", "artistic"]
       keywords := ["brutal", "brutalist", "bold", "geometric", "raw"] })
  , ("modern",
     { characteristics := ["contemporary", "sleek", "professional", "polished"]
       complexity := 6/10
       suitability := ["landing", "corporate", "saas"]
       keywords := ["modern", "contemporary", "sleek", "professional", "polished"] })
  , ("dark",
     { characteristics := ["dark_theme", "contrast", "dramatic", "sophisticated"]
       complexity := 5/10
       suitability := ["dashboard", "gaming", "tech"]
       keywords := ["dark", "night", "black", "shadow", "dramatic"] })
  , ("colorful",
     { characteristics := ["vibrant", "energetic", "playful", "bold"]
       complexity := 6/10
       suitability := ["creative", "children", "entertainment"]
       keywords := ["colorful", "vibrant", "bright", "energetic", "playful"] }) ]

/-- `_initialize_domain_knowledge`, in the source's insertion order. -/
def domain_knowledge : List (String × DomainData) :=
  [ ("technology",
     { characteristics := ["innovative", "cutting_edge", "efficient", "scalable"]
       keywords := ["saas", "software", "tech", "ai", "machine learning", "cloud"]
       audience := "developers" })
  , ("finance",
     { characteristics := ["trustworthy", "professional", "secure", "reliable"]
       keywords := ["finance", "bank", "fintech", "investment", "trading", "crypto"]
       audience := "professionals" })
  , ("healthcare",
     { characteristics := ["caring", "professional", "accessible", "trustworthy"]
       keywords := ["health", "medical", "healthcare", "doctor", "patient", "wellness"]
       audience := "patients" })
  , ("education",
     { characteristics := ["inspiring", "accessible", "engaging", "supportive"]
       keywords := ["education", "learning", "course", "school", "university", "training"]
       audience := "students" })
  , ("retail",
     { characteristics := ["appealing", "trustworthy", "convenient", "trendy"]
       keywords := ["retail", "fashion", "commerce", "shopping", "store", "brand"]
       audience := "consumers" })
  , ("entertainment",
     { characteristics := ["exciting", "engaging", "fun", "immersive"]
       keywords := ["entertainment", "gaming", "media", "streaming", "content", "fun"]
       audience := "general" }) ]

/-- The `functional_patterns` table local to `_extract_entities`. -/
def functional_patterns : List (String × List String) :=
  [ ("responsive", ["responsive", "mobile", "tablet", "device"])
  , ("accessible", ["accessible", "accessibility", "a11y", "wcag"])
  , ("performance", ["fast", "performance", "speed", "optimize"])
  , ("secure", ["secure", "security", "safe", "ssl"])
  , ("seo", ["seo", "search", "google", "optimization"])
  , ("animations", ["animation", "motion", "transition", "interactive"]) ]

/-- The `technical_patterns` table local to `_extract_entities`. -/
def technical_patterns : List (String × List String) :=
  [ ("react_nextjs", ["react", "nextjs", "next.js", "jsx"])
  , ("typescript", ["typescript", "ts", "type"])
  , ("tailwind", ["tailwind", "css", "styling"])
  , ("api_integration", ["api", "backend", "server", "database"])
  , ("authentication", ["auth", "login", "user", "session"]) ]

/-- `any(keyword in original_lower for keyword in keywords)`: does some keyword
of the list occur as a substring of `hay`?  (The source's inner loop with
`break` records a catalog key exactly when this holds.) -/
def matchesAny (kws : List String) (hay : List Char) : Bool :=
  kws.any (fun k => containsSub k.toList hay)

/-- The catalog keys whose keyword list matches `hay`, in catalog order. -/
def detectedKeys {α : Type} (cat : List (String × α)) (kwsOf : α → List String)
    (hay : List Char) : List String :=
  (cat.filter (fun e => matchesAny (kwsOf e.2) hay)).map Prod.fst

/-- The entity bag built by `_extract_entities`.  The `components` and
`audiences` keys exist in the source's dict but are never appended to. -/
structure Entities where
  page_types : List String
  styles : List String
  components : List String
  domains : List String
  audiences : List String
  functional : List String
  technical : List String
deriving DecidableEq, Repr

/-- `_tokenize_prompt`: lowercase, replace non-word characters by spaces,
split, and keep tokens of length > 2.  (Its result is never consulted by the
extraction, which matches against the lowercased original prompt.) -/
def _tokenize_prompt (prompt : String) : List String :=
  let cleaned := (pyLower prompt.toList).map
    (fun c => if c.isAlphanum || c = '_' || pyIsSpace c then c else ' ')
  (((cleaned.splitOnP pyIsSpace).map (fun w => String.mk w)).filter
    (fun t => ¬ t.isEmpty)).filter (fun t => t.length > 2)

/-- `_extract_entities` (the token argument is unused by the source's
matching, which scans `original_prompt.lower()`). -/
def _extract_entities (tokens : List String) (original_prompt : String) : Entities :=
  let ol := pyLower original_prompt.toList
  { page_types := detectedKeys design_patterns PatternData.keywords ol
    styles := detectedKeys style_guides StyleData.keywords ol
    components := []
    domains := detectedKeys domain_knowledge DomainData.keywords ol
    audiences := []
    functional := (functional_patterns.filter (fun e => matchesAny e.2 ol)).map Prod.fst
    technical := (technical_patterns.filter (fun e => matchesAny e.2 ol)).map Prod.fst }

/-- The record returned by `_classify_intent`. -/
structure Intent where
  page_type : String
  styles : List String
  components : List String
  layout : String
  domain : String
  audience : String
  personality : List String
  functional : List String
  technical : List String
deriving DecidableEq, Repr

/-- The `audience_patterns` table local to `_infer_audience`. -/
def audience_patterns : List (String × List String) :=
  [ ("professionals", ["business", "corporate", "professional", "enterprise"])
  , ("developers", ["developer", "tech", "programmer", "code"])
  , ("students", ["student", "learn", "education", "course"])
  , ("consumers", ["customer", "user", "buyer", "consumer"])
  , ("creatives", ["artist", "designer", "creative", "portfolio"]) ]

/-- `_infer_audience`. -/
def _infer_audience (domain : String) (prompt : String) : String :=
  match dictGet domain_knowledge domain with
  | some d => d.audience
  | none =>
    let pl := pyLower prompt.toList
    (((audience_patterns.find? (fun e => matchesAny e.2 pl))).map Prod.fst).getD "general"

/-- The `style_personalities` table local to `_infer_personality`.
Note the style "modern" has no entry. -/
def style_personalities : List (String × List String) :=
  [ ("minimalist", ["sophisticated", "clean", "professional"])
  , ("brutalist", ["bold", "experimental", "edgy"])
  , ("glassmorphism", ["modern", "innovative", "elegant"])
  , ("dark", ["sophisticated", "dramatic", "premium"])
  , ("colorful", ["energetic", "playful", "vibrant"]) ]

/-- `_infer_personality`; `list(set(...))` is modelled by `List.dedup`. -/
def _infer_personality (styles : List String) (domain : String) : List String :=
  let fromStyles := styles.foldl
    (fun acc s => acc ++ ((dictGet style_personalities s).getD [])) []
  let withDomain := fromStyles ++
    (((dictGet domain_knowledge domain).map DomainData.characteristics).getD [])
  if withDomain.isEmpty then ["friendly", "approachable"] else withDomain.dedup

/-- A useless fallback pattern: `design_patterns.get(page_type,
design_patterns['landing'])` can only miss both lookups if the catalog were
empty, which it is not; modelled with an inert default entry. -/
def emptyPattern : PatternData := { components := [], layouts := [], complexity := 1/2, keywords := [] }

/-- `_classify_intent`. -/
def _classify_intent (entities : Entities) (prompt : String) : Intent :=
  let page_type := entities.page_types.headD "landing"
  let pattern := (dictGet design_patterns page_type).getD
    ((dictGet design_patterns "landing").getD emptyPattern)
  let styles := if entities.styles.isEmpty then ["modern"] else entities.styles
  let domain := entities.domains.headD "general"
  { page_type := page_type
    styles := styles
    components := pattern.components
    layout := pattern.layouts.headD ""
    domain := domain
    audience := _infer_audience domain prompt
    personality := _infer_personality styles domain
    functional := if entities.functional.isEmpty then ["responsive"] else entities.functional
    technical := if entities.technical.isEmpty then ["react_nextjs", "tailwind"]
                 else entities.technical }

/-- `_calculate_complexity`.  Note the word-count branch is transcribed
exactly as in the source: `if prompt_length > 50: ... elif prompt_length >
100: ...`, so the `> 100` arm is only reached when `prompt_length ≤ 50`. -/
def _calculate_complexity (intent : Intent) (prompt : String) : ℚ :=
  let base0 : ℚ :=
    match dictGet design_patterns intent.page_type with
    | some d => d.complexity
    | none => 1/2
  let base1 := intent.styles.foldl
    (fun acc s =>
      match dictGet style_guides s with
      | some d => acc + d.complexity * (1/10)
      | none => acc) base0
  let base2 := base1 + ((intent.components.length : ℚ) - 3) * (5/100)
  let base3 := base2 + (intent.functional.length : ℚ) * (8/100)
  let base4 := base3 + (intent.technical.length : ℚ) * (6/100)
  let wc := wordCount prompt.toList
  let base5 := if wc > 50 then base4 + 1/10
               else if wc > 100 then base4 + 2/10
               else base4
  min base5 1

/-- The `specific_terms` list of `_calculate_confidence`. -/
def specific_terms : List String := ["create", "build", "design", "make", "generate"]

/-- `_calculate_confidence`. -/
def _calculate_confidence (entities : Entities) (prompt : String) : ℚ :=
  let c0 : ℚ := 1/2
  let c1 := if entities.page_types.isEmpty then c0 else c0 + 3/10
  let c2 := if entities.styles.isEmpty then c1 else c1 + 2/10
  let c3 := if entities.domains.isEmpty then c2 else c2 + 1/10
  let wc := wordCount prompt.toList
  let c4 := if wc > 10 then c3 + 1/10 else c3
  let c5 := if wc > 25 then c4 + 1/10 else c4
  let c6 := if specific_terms.any (fun t => containsSub t.toList (pyLower prompt.toList))
            then c5 + 1/10 else c5
  min c6 1

/-- The output record `DesignIntentResponse` (backend/app/models.py). -/
structure DesignIntentResponse where
  page_type : String
  style_preferences : List String
  components : List String
  layout : String
  complexity : ℚ
  business_domain : String
  target_audience : String
  brand_personality : List String
  functional_requirements : List String
  technical_requirements : List String
  confidence : ℚ
deriving DecidableEq, Repr

/-- `_get_default_analysis`: the fixed fallback record. -/
def _get_default_analysis : DesignIntentResponse :=
  { page_type := "landing"
    style_preferences := ["modern"]
    components := ["header", "hero", "features", "footer"]
    layout := "single_column"
    complexity := 1/2
    business_domain := "general"
    target_audience := "general"
    brand_personality := ["friendly", "approachable"]
    functional_requirements := ["responsive"]
    technical_requirements := ["react_nextjs", "tailwind"]
    confidence := 3/10 }

/-- The body of `analyze_prompt`'s `try` block (steps 1-5). -/
def analyze_prompt_body (prompt : String) : DesignIntentResponse :=
  let tokens := _tokenize_prompt prompt
  let entities := _extract_entities tokens prompt
  let intent := _classify_intent entities prompt
  { page_type := intent.page_type
    style_preferences := intent.styles
    components := intent.components
    layout := intent.layout
    complexity := _calculate_complexity intent prompt
    business_domain := intent.domain
    target_audience := intent.audience
    brand_personality := intent.personality
    functional_requirements := intent.functional
    technical_requirements := intent.technical
    confidence := _calculate_confidence entities prompt }

/-- The `try/except Exception` wrapper of `analyze_prompt`: an exceptional
outcome of the body, whatever the exception, is replaced by the default
analysis; a normal outcome is returned unchanged. -/
def analyze_prompt_catch (body : Except String DesignIntentResponse) : DesignIntentResponse :=
  match body with
  | Except.ok r => r
  | Except.error _ => _get_default_analysis

/-- `analyze_prompt`: in the embedding every step of the body is total, so
the body always returns normally. -/
def analyze_prompt (prompt : String) : DesignIntentResponse :=
  analyze_prompt_catch (Except.ok (analyze_prompt_body prompt))

/-- A 120-word prompt ("contact" followed by 119 filler words) matching the
"contact" page type and no style, domain, functional or technical keyword. -/
def longPrompt : String := "contact" ++ String.join (List.replicate 119 " z")

/-- The style catalog's insertion order. -/
def style_catalog_order : List String :=
  ["glassmorphism", "minimalist", "brutalist", "modern", "dark", "colorful"]

/-- The confidence formula as the spec states it: base 0.5, +0.3 for a
page-type match, +0.2 for a style match, +0.1 for a domain match, +0.1 for
word count > 10 plus +0.1 more for word count > 25 (cumulative), +0.1 for an
intent verb, clamped by min with 1. -/
def confidence_spec (p : String) : ℚ :=
  let ol := pyLower p.toList
  let wc := wordCount p.toList
  min 1 (1/2
    + (if design_patterns.any (fun e => matchesAny (PatternData.keywords e.2) ol) = true
       then 3/10 else 0)
    + (if style_guides.any (fun e => matchesAny (StyleData.keywords e.2) ol) = true
       then 2/10 else 0)
    + (if domain_knowledge.any (fun e => matchesAny (DomainData.keywords e.2) ol) = true
       then 1/10 else 0)
    + (if wc > 10 then 1/10 else 0)
    + (if wc > 25 then 1/10 else 0)
    + (if specific_terms.any (fun t => containsSub t.toList ol) = true then 1/10 else 0))

/-! ## Helper lemmas -/

/-- A successful `dictGet` returns the payload of some entry of the list. -/
theorem dictGet_mem {α : Type} {d : List (String × α)} {k : String} {v : α}
    (h : dictGet d k = some v) : ∃ pr, pr ∈ d ∧ pr.2 = v := by
  unfold dictGet at h
  cases hf : d.find? (fun p => p.1 == k) with
  | none => rw [hf] at h; exact absurd h (by simp)
  | some pr =>
    rw [hf] at h
    exact ⟨pr, List.mem_of_find?_eq_some hf, by simpa using h⟩

/-- A filtered list is empty exactly when no element satisfies the test. -/
theorem filter_isEmpty_eq_not_any {α : Type} (p : α → Bool) (l : List α) :
    (l.filter p).isEmpty = !l.any p := by
  induction l with
  | nil => rfl
  | cons x t ih => by_cases h : p x <;> simp [List.filter_cons, h, ih]

/-- `detectedKeys` is empty exactly when no catalog entry matches. -/
theorem detectedKeys_isEmpty {α : Type} (cat : List (String × α))
    (kwsOf : α → List String) (hay : List Char) :
    (detectedKeys cat kwsOf hay).isEmpty
      = !cat.any (fun e => matchesAny (kwsOf e.2) hay) := by
  unfold detectedKeys
  rw [← filter_isEmpty_eq_not_any]
  cases cat.filter (fun e => matchesAny (kwsOf e.2) hay) <;> rfl

/-- The head of a filtered list is the first element satisfying the test. -/
theorem head?_filter_eq_find? {α : Type} (p : α → Bool) (l : List α) :
    (l.filter p).head? = l.find? p := by
  induction l with
  | nil => rfl
  | cons x t ih => by_cases h : p x <;> simp [List.filter_cons, List.find?_cons, h, ih]

/-- The first detected catalog key is the key of the first matching entry. -/
theorem detectedKeys_headD {α : Type} (cat : List (String × α))
    (kwsOf : α → List String) (hay : List Char) (d : String) :
    (detectedKeys cat kwsOf hay).headD d
      = ((cat.find? (fun e => matchesAny (kwsOf e.2) hay)).map Prod.fst).getD d := by
  unfold detectedKeys
  rw [List.headD_eq_head?_getD, List.head?_map, head?_filter_eq_find?]

/-- Projection equations of the pipeline, by definitional unfolding. -/
theorem analyze_page_type_eq (p : String) :
    (analyze_prompt p).page_type
      = (_extract_entities (_tokenize_prompt p) p).page_types.headD "landing" := rfl

theorem analyze_styles_eq (p : String) :
    (analyze_prompt p).style_preferences
      = (if (_extract_entities (_tokenize_prompt p) p).styles.isEmpty then ["modern"]
         else (_extract_entities (_tokenize_prompt p) p).styles) := rfl

theorem analyze_components_eq (p : String) :
    (analyze_prompt p).components
      = ((dictGet design_patterns
            ((_extract_entities (_tokenize_prompt p) p).page_types.headD "landing")).getD
          ((dictGet design_patterns "landing").getD emptyPattern)).components := rfl

theorem analyze_personality_eq (p : String) :
    (analyze_prompt p).brand_personality
      = (_classify_intent (_extract_entities (_tokenize_prompt p) p) p).personality := rfl

theorem analyze_complexity_eq (p : String) :
    (analyze_prompt p).complexity
      = _calculate_complexity (_classify_intent (_extract_entities (_tokenize_prompt p) p) p) p
      := rfl

theorem analyze_confidence_eq (p : String) :
    (analyze_prompt p).confidence
      = _calculate_confidence (_extract_entities (_tokenize_prompt p) p) p := rfl

theorem extract_page_types_eq (tokens : List String) (p : String) :
    (_extract_entities tokens p).page_types
      = detectedKeys design_patterns PatternData.keywords (pyLower p.toList) := rfl

theorem extract_styles_eq (tokens : List String) (p : String) :
    (_extract_entities tokens p).styles
      = detectedKeys style_guides StyleData.keywords (pyLower p.toList) := rfl

theorem extract_domains_eq (tokens : List String) (p : String) :
    (_extract_entities tokens p).domains
      = detectedKeys domain_knowledge DomainData.keywords (pyLower p.toList) := rfl

/-- Swapping the branches of an `if` on a negated Boolean condition. -/
theorem if_not_bool {α : Type} (b : Bool) (x y : α) :
    (if (!b) = true then x else y) = if b = true then y else x := by
  cases b <;> rfl

theorem classify_components_eq (entities : Entities) (prompt : String) :
    (_classify_intent entities prompt).components
      = ((dictGet design_patterns (entities.page_types.headD "landing")).getD
          ((dictGet design_patterns "landing").getD emptyPattern)).components := rfl

/-- The page-type complexity read by `_calculate_complexity` is nonnegative. -/
theorem design_complexity_nonneg (k : String) :
    0 ≤ (match dictGet design_patterns k with
         | some d => d.complexity
         | none => (1/2 : ℚ)) := by
  cases h : dictGet design_patterns k with
  | none => norm_num
  | some d =>
    obtain ⟨pr, hmem, hv⟩ := dictGet_mem h
    have hall : ∀ pr ∈ design_patterns, 0 ≤ pr.2.complexity := by
      intro pr hmem
      fin_cases hmem <;> norm_num
    simpa [hv] using hall pr hmem

/-- The style-complexity accumulation never decreases the score. -/
theorem style_fold_le (styles : List String) (base : ℚ) :
    base ≤ styles.foldl
      (fun acc s =>
        match dictGet style_guides s with
        | some d => acc + d.complexity * (1/10)
        | none => acc) base := by
  induction styles generalizing base with
  | nil => exact le_refl base
  | cons s t ih =>
    rw [List.foldl_cons]
    refine le_trans ?_ (ih _)
    cases h : dictGet style_guides s with
    | none => simp
    | some d =>
      obtain ⟨pr, hmem, hv⟩ := dictGet_mem h
      have hall : ∀ pr ∈ style_guides, 0 ≤ pr.2.complexity := by
        intro pr hmem
        fin_cases hmem <;> norm_num
      have hc : 0 ≤ d.complexity := hv ▸ hall pr hmem
      have hc10 : 0 ≤ d.complexity * (1/10) := mul_nonneg hc (by norm_num)
      exact le_add_of_nonneg_right hc10

/-- Every page-type catalog entry (and the landing fallback) lists at least
four components. -/
theorem pattern_components_length (k : String) :
    4 ≤ (((dictGet design_patterns k).getD
        ((dictGet design_patterns "landing").getD emptyPattern)).components).length := by
  cases h : dictGet design_patterns k with
  | none => decide
  | some d =>
    obtain ⟨pr, hmem, hv⟩ := dictGet_mem h
    have hall : ∀ pr ∈ design_patterns, 4 ≤ pr.2.components.length := by decide
    simpa [hv] using hall pr hmem

/-- The final `min(..., 1.0)` caps the complexity at 1. -/
theorem calculate_complexity_le_one (intent : Intent) (prompt : String) :
    _calculate_complexity intent prompt ≤ 1 :=
  min_le_right _ _

/-- With at least three resolved components, every additive term of the
complexity score is nonnegative, so the final score is nonnegative. -/
theorem calculate_complexity_nonneg (intent : Intent) (prompt : String)
    (hc : 3 ≤ intent.components.length) :
    0 ≤ _calculate_complexity intent prompt := by
  simp only [_calculate_complexity]
  refine le_min ?_ (by norm_num)
  have h0 := design_complexity_nonneg intent.page_type
  have h1 := style_fold_le intent.styles
    (match dictGet design_patterns intent.page_type with
     | some d => d.complexity
     | none => (1/2 : ℚ))
  have hcq : (3 : ℚ) ≤ (intent.components.length : ℚ) := by exact_mod_cast hc
  have h2 : 0 ≤ ((intent.components.length : ℚ) - 3) * (5/100) :=
    mul_nonneg (by linarith) (by norm_num)
  have h3 : 0 ≤ (intent.functional.length : ℚ) * (8/100) :=
    mul_nonneg (Nat.cast_nonneg _) (by norm_num)
  have h4 : 0 ≤ (intent.technical.length : ℚ) * (6/100) :=
    mul_nonneg (Nat.cast_nonneg _) (by norm_num)
  split_ifs <;> linarith

/-- The confidence score starts at 0.5 and only gains bonuses. -/
theorem calculate_confidence_ge_half (entities : Entities) (prompt : String) :
    1/2 ≤ _calculate_confidence entities prompt := by
  simp only [_calculate_confidence]
  refine le_min ?_ (by norm_num)
  split_ifs <;> norm_num

/-- The final `min(..., 1.0)` caps the confidence at 1. -/
theorem calculate_confidence_le_one (entities : Entities) (prompt : String) :
    _calculate_confidence entities prompt ≤ 1 :=
  min_le_right _ _

/-- Closed form of the confidence score: each accumulator step contributes an
independent additive bonus. -/
theorem calculate_confidence_formula (entities : Entities) (prompt : String) :
    _calculate_confidence entities prompt
      = min 1 (1/2
        + (if entities.page_types.isEmpty = true then 0 else 3/10)
        + (if entities.styles.isEmpty = true then 0 else 2/10)
        + (if entities.domains.isEmpty = true then 0 else 1/10)
        + (if wordCount prompt.toList > 10 then 1/10 else 0)
        + (if wordCount prompt.toList > 25 then 1/10 else 0)
        + (if specific_terms.any (fun t => containsSub t.toList (pyLower prompt.toList)) = true
           then 1/10 else 0)) := by
  simp only [_calculate_confidence]
  rw [min_comm]
  by_cases h1 : entities.page_types.isEmpty = true <;>
  by_cases h2 : entities.styles.isEmpty = true <;>
  by_cases h3 : entities.domains.isEmpty = true <;>
  by_cases h4 : wordCount prompt.toList > 10 <;>
  by_cases h5 : wordCount prompt.toList > 25 <;>
  by_cases h6 : specific_terms.any (fun t => containsSub t.toList (pyLower prompt.toList)) = true <;>
  simp only [h1, h2, h3, h4, h5, h6, if_true, if_false, if_pos, if_neg, not_false_iff] <;>
  norm_num [h1, h2, h3, h4, h5, h6]

theorem classify_personality_eq (entities : Entities) (prompt : String) :
    (_classify_intent entities prompt).personality
      = _infer_personality
          (if entities.styles.isEmpty then ["modern"] else entities.styles)
          (entities.domains.headD "general") := rfl

/-- `_infer_personality` never returns an empty list: an empty trait union is
replaced by the fixed default, and deduplication preserves non-emptiness. -/
theorem infer_personality_ne_nil (styles : List String) (domain : String) :
    _infer_personality styles domain ≠ [] := by
  simp only [_infer_personality]
  split_ifs with h
  · simp
  · rw [Ne, List.dedup_eq_nil]
    intro hnil
    rw [hnil] at h
    exact h rfl

/-! ## Claim theorems -/

/-- C3: whenever the body of `analyze_prompt` raises (modelled by an
`Except.error` outcome, whatever the exception value), the `try/except`
wrapper returns exactly the fixed default `DesignIntent` — page_type
"landing", styles ["modern"], components ["header","hero","features",
"footer"], layout "single_column", complexity 0.5, domain "general",
audience "general", personality ["friendly","approachable"], functional
["responsive"], technical ["react_nextjs","tailwind"], confidence 0.3 — and,
being a total function, propagates no exception. -/
theorem C3_error_path_returns_default (body : Except String DesignIntentResponse)
    (h : ∃ e, body = Except.error e) :
    analyze_prompt_catch body =
      { page_type := "landing"
        style_preferences := ["modern"]
        components := ["header", "hero", "features", "footer"]
        layout := "single_column"
        complexity := 1/2
        business_domain := "general"
        target_audience := "general"
        brand_personality := ["friendly", "approachable"]
        functional_requirements := ["responsive"]
        technical_requirements := ["react_nextjs", "tailwind"]
        confidence := 3/10 } := by
  obtain ⟨e, rfl⟩ := h
  rfl

/-- Witness for C3 at a concrete exceptional outcome. -/
theorem C3_error_path_returns_default_witness :
    (∃ e, (Except.error "lookup failure" : Except String DesignIntentResponse)
        = Except.error e) ∧
    analyze_prompt_catch (Except.error "lookup failure") =
      { page_type := "landing"
        style_preferences := ["modern"]
        components := ["header", "hero", "features", "footer"]
        layout := "single_column"
        complexity := 1/2
        business_domain := "general"
        target_audience := "general"
        brand_personality := ["friendly", "approachable"]
        functional_requirements := ["responsive"]
        technical_requirements := ["react_nextjs", "tailwind"]
        confidence := 3/10 } :=
  ⟨⟨"lookup failure", rfl⟩,
   C3_error_path_returns_default _ ⟨"lookup failure", rfl⟩⟩

/-- C4: for every non-empty prompt the returned complexity and confidence lie
in [0, 1]; in particular the additive complexity terms can never drive the
score below 0 even though the code only clamps from above. -/
theorem C4_scores_in_unit_interval (p : String) (hp : p ≠ "") :
    0 ≤ (analyze_prompt p).complexity ∧ (analyze_prompt p).complexity ≤ 1 ∧
    0 ≤ (analyze_prompt p).confidence ∧ (analyze_prompt p).confidence ≤ 1 := by
  refine ⟨?_, ?_, ?_, ?_⟩
  · rw [analyze_complexity_eq]
    refine calculate_complexity_nonneg _ _ ?_
    rw [classify_components_eq]
    exact le_trans (by norm_num) (pattern_components_length _)
  · rw [analyze_complexity_eq]
    exact calculate_complexity_le_one _ _
  · rw [analyze_confidence_eq]
    exact le_trans (by norm_num) (calculate_confidence_ge_half _ _)
  · rw [analyze_confidence_eq]
    exact calculate_confidence_le_one _ _

/-- Witness for C4 at a concrete non-empty prompt. -/
theorem C4_scores_in_unit_interval_witness :
    ("create a shop" : String) ≠ "" ∧
    (0 ≤ (analyze_prompt "create a shop").complexity ∧
     (analyze_prompt "create a shop").complexity ≤ 1 ∧
     0 ≤ (analyze_prompt "create a shop").confidence ∧
     (analyze_prompt "create a shop").confidence ≤ 1) :=
  ⟨by decide, C4_scores_in_unit_interval "create a shop" (by decide)⟩

/-- C6: for every prompt the returned components list (taken from the resolved
page-type catalog entry, each of which has at least four components) and the
brand-personality list (defaulted to ["friendly","approachable"] when the
trait union is empty) are non-empty. -/
theorem C6_components_personality_nonempty (p : String) :
    (analyze_prompt p).components ≠ [] ∧ (analyze_prompt p).brand_personality ≠ [] := by
  constructor
  · rw [analyze_components_eq]
    intro hnil
    have h := pattern_components_length
      ((_extract_entities (_tokenize_prompt p) p).page_types.headD "landing")
    rw [hnil] at h
    simp at h
  · rw [analyze_personality_eq, classify_personality_eq]
    exact infer_personality_ne_nil _ _

/-- C7: the analysis is deterministic — it is a pure function of the prompt
alone (the embedding threads no state, time or randomness), so two
invocations on the identical prompt string return identical records. -/
theorem C7_analyze_deterministic (p q : String) (h : p = q) :
    analyze_prompt p = analyze_prompt q := by rw [h]

/-- Witness for C7 at a concrete prompt. -/
theorem C7_analyze_deterministic_witness :
    ("build a dark dashboard" : String) = "build a dark dashboard" ∧
    analyze_prompt "build a dark dashboard" = analyze_prompt "build a dark dashboard" :=
  ⟨rfl, C7_analyze_deterministic _ _ rfl⟩

/-- C8: every successfully analyzed prompt gets confidence at least 0.5
(base 0.5 plus nonnegative bonuses, clamped from above only), while the
error-fallback record carries confidence 0.3 < 0.5, so the fallback is
distinguishable from any real classification. -/
theorem C8_success_confidence_floor (p : String) :
    1/2 ≤ (analyze_prompt p).confidence ∧ _get_default_analysis.confidence < 1/2 := by
  constructor
  · rw [analyze_confidence_eq]
    exact calculate_confidence_ge_half _ _
  · norm_num [_get_default_analysis]

/-- C1: evaluation of the code at the failing input.  `longPrompt` has word
count 120 and matches no catalog keyword except the page type "contact", yet
its complexity is 0.4 (contact) + 0.06 (default style "modern") + 0.05
(4 components) + 0.08 + 0.12 (default functional/technical) + **0.1** = 0.81,
not the 0.91 the claimed +0.2 long-prompt bonus would give: the source tests
`if prompt_length > 50` before `elif prompt_length > 100`, so the +0.2 branch
is unreachable and a 120-word prompt receives +0.1. -/
theorem C1_long_prompt_gets_small_bonus :
    wordCount longPrompt.toList = 120 ∧
    (analyze_prompt longPrompt).complexity = 81/100 ∧
    (analyze_prompt longPrompt).complexity ≠ 91/100 := by
  have hwc : wordCount longPrompt.toList = 120 := by decide
  have he : _extract_entities (_tokenize_prompt longPrompt) longPrompt
      = { page_types := ["contact"], styles := [], components := [], domains := [],
          audiences := [], functional := [], technical := [] } := by decide
  have hi : _classify_intent
      { page_types := ["contact"], styles := [], components := [], domains := [],
        audiences := [], functional := [], technical := [] } longPrompt
      = { page_type := "contact", styles := ["modern"],
          components := ["contact_form", "map", "info_cards", "social_links"],
          layout := "split", domain := "general", audience := "general",
          personality := ["friendly", "approachable"], functional := ["responsive"],
          technical := ["react_nextjs", "tailwind"] } := by decide
  have hd1 : dictGet design_patterns "contact"
      = some { components := ["contact_form", "map", "info_cards", "social_links"]
               layouts := ["split", "centered", "form_info"]
               complexity := 4/10
               keywords := ["contact", "form", "get in touch", "reach out", "inquiry"] } := rfl
  have hd2 : dictGet style_guides "modern"
      = some { characteristics := ["contemporary", "sleek", "professional", "polished"]
               complexity := 6/10
               suitability := ["landing", "corporate", "saas"]
               keywords := ["modern", "contemporary", "sleek", "professional", "polished"] } := rfl
  have hcomp : (analyze_prompt longPrompt).complexity = 81/100 := by
    rw [analyze_complexity_eq, he, hi]
    simp only [_calculate_complexity, List.foldl, List.length, hwc, hd1, hd2]
    norm_num
  exact ⟨hwc, hcomp, by rw [hcomp]; norm_num⟩

/-- C2 counterexample: the prompt "auth dashboard" contains the substring
"dashboard", but the page-type scan reaches "authentication" first (its
keyword "auth" also matches), so `analyze` does not return page_type
"dashboard" for every prompt containing "dashboard". -/
theorem C2_containment_counterexample :
    containsSub "dashboard".toList (pyLower "auth dashboard".toList) = true ∧
    (analyze_prompt "auth dashboard").page_type = "authentication" ∧
    (analyze_prompt "auth dashboard").page_type ≠ "dashboard" :=
  ⟨by decide, by decide, by decide⟩

/-- C2 (amended): a prompt containing the substring "dashboard" and matching
no keyword of the "authentication" entry — the only entry preceding
"dashboard" in the catalog's insertion order — yields page_type "dashboard";
in particular the "dashboard"/"ecommerce" tie is broken by insertion order. -/
theorem C2_dashboard_first_match (p : String)
    (hdash : containsSub "dashboard".toList (pyLower p.toList) = true)
    (hauth : matchesAny ["login", "signin", "auth", "authentication", "sign in"]
      (pyLower p.toList) = false) :
    (analyze_prompt p).page_type = "dashboard" := by
  rw [analyze_page_type_eq, extract_page_types_eq, detectedKeys_headD]
  have hdashTrue : matchesAny ["dashboard", "admin", "panel", "analytics", "stats", "control"]
      (pyLower p.toList) = true := by
    simp only [matchesAny, List.any_cons, hdash, Bool.true_or]
  simp only [String.toList] at hauth hdashTrue
  simp [design_patterns, List.find?, hauth, hdashTrue]

/-- Witness for C2 (amended) at "shop dashboard": both the "dashboard" and
"ecommerce" ("shop") entries match, and the tie-break picks "dashboard". -/
theorem C2_dashboard_first_match_witness :
    containsSub "dashboard".toList (pyLower "shop dashboard".toList) = true ∧
    matchesAny ["login", "signin", "auth", "authentication", "sign in"]
      (pyLower "shop dashboard".toList) = false ∧
    (analyze_prompt "shop dashboard").page_type = "dashboard" :=
  ⟨by decide, by decide, C2_dashboard_first_match "shop dashboard" (by decide) (by decide)⟩

/-- C5: the confidence of a successful analysis is exactly
min(1, 0.5 + 0.3·[page-type matched] + 0.2·[style matched] + 0.1·[domain
matched] + 0.1·[word count > 10] + 0.1·[word count > 25] + 0.1·[intent verb
present]), the two word-count bonuses being cumulative. -/
theorem C5_confidence_formula (p : String) :
    (analyze_prompt p).confidence = confidence_spec p := by
  rw [analyze_confidence_eq, calculate_confidence_formula]
  rw [extract_page_types_eq, extract_styles_eq, extract_domains_eq]
  rw [detectedKeys_isEmpty, detectedKeys_isEmpty, detectedKeys_isEmpty]
  rw [if_not_bool, if_not_bool, if_not_bool]
  rfl

/-- C9: the empty prompt takes the normal path with the no-match defaults —
page_type "landing", styles ["modern"], domain "general", audience "general",
functional ["responsive"], technical ["react_nextjs","tailwind"] — and
confidence exactly 0.5, not the fallback's 0.3. -/
theorem C9_empty_prompt_defaults :
    (analyze_prompt "").page_type = "landing" ∧
    (analyze_prompt "").style_preferences = ["modern"] ∧
    (analyze_prompt "").business_domain = "general" ∧
    (analyze_prompt "").target_audience = "general" ∧
    (analyze_prompt "").functional_requirements = ["responsive"] ∧
    (analyze_prompt "").technical_requirements = ["react_nextjs", "tailwind"] ∧
    (analyze_prompt "").confidence = 1/2 := by
  have he : _extract_entities (_tokenize_prompt "") ""
      = { page_types := [], styles := [], components := [], domains := [],
          audiences := [], functional := [], technical := [] } := by decide
  refine ⟨by decide, by decide, by decide, by decide, by decide, by decide, ?_⟩
  rw [analyze_confidence_eq, he]
  simp only [_calculate_confidence]
  norm_num [wordCount, wordCountAux, specific_terms, containsSub, pyLower]

/-- C10: the returned style preferences are always a subsequence of the style
catalog's insertion order [glassmorphism, minimalist, brutalist, modern,
dark, colorful] (whatever order the keywords appear in the prompt), and the
resolved page type is the first key, in the page-type catalog's insertion
order, whose keywords match — "landing" when none match. -/
theorem C10_catalog_iteration_order (p : String) :
    List.Sublist (analyze_prompt p).style_preferences style_catalog_order ∧
    (analyze_prompt p).page_type =
      ((design_patterns.find?
          (fun e => matchesAny (PatternData.keywords e.2) (pyLower p.toList))).map
        Prod.fst).getD "landing" := by
  constructor
  · rw [analyze_styles_eq]
    by_cases h : (_extract_entities (_tokenize_prompt p) p).styles.isEmpty
    · rw [if_pos h]
      decide
    · rw [if_neg h, extract_styles_eq]
      exact (List.filter_sublist style_guides).map Prod.fst
  · rw [analyze_page_type_eq, extract_page_types_eq, detectedKeys_headD]

end MagicUI
